import Mathlib

/-!
Verification development for the salon appointment-booking backend
(`src/app.py`, `src/utils.py`).

The Python source is shallowly embedded:
* money amounts (`base_price`, `discount_value`, prices) are modelled as `ℚ`,
  with Python's `round(x, 2)` modelled as round-half-to-even at two decimals;
* MongoDB documents become Lean structures, each collection a list, and the
  whole store a `DB` record; `find_one` becomes `List.find?`, insertion appends;
* the two unique indexes declared in `app.py` (bookings on
  `(service_id, date, time_slot)`, attendance on `(staff_id, date)`) are
  modelled as explicit violation checks at insertion time: an insert that
  would duplicate the key raises `DuplicateKeyError`, which `create_booking`
  catches (mapping it to the 409 slot-taken response) and
  `attendance_checkin` does not catch (modelled as `internalError`);
* endpoint handlers become functions `DB → inputs → Except ApiError result`;
  an early `return jsonify(error)` becomes `.error e` (leaving the store
  untouched, as the handler returns before any write);
* the wall clock (`datetime.now()`) is passed in explicitly: `now : Instant`
  for date-time comparisons and `today : String` (the `YYYY-MM-DD` rendering)
  for the Mongo string comparisons in `get_active_discount`;
* date strings are compared the way Python and MongoDB compare them:
  lexicographically on code points (`strLe` below);
* `datetime.strptime` with `"%Y-%m-%d"` / `"%H:%M"` is modelled character by
  character after CPython's `_strptime` regular expressions
  (`%Y` = four digits, `%m` = `1[0-2]|0[1-9]|[1-9]`,
  `%d` = `3[01]|[12]\d|0[1-9]|[1-9]`, `%H` = `2[0-3]|[0-1]\d|\d`,
  `%M` = `[0-5]\d|\d`, full match required) plus the calendar check done by
  the `datetime` constructor.

State-changing endpoints not formalised in full (user registration, service
and staff CRUD, the discount endpoints) never write to the `bookings` or
`attendance` collections (checked against every `*_collection` write in
`app.py`); the transition system below covers them with a frame step that
leaves those two collections unchanged.
-/

namespace Salon

/-! ### Characters and lexicographic string comparison -/

/-- Python regex `\d` on a character: code point between `'0'` (48) and `'9'` (57). -/
def isDig (c : Char) : Bool := 48 ≤ c.toNat && c.toNat ≤ 57

/-- Numeric value of a digit character. -/
def digitVal (c : Char) : Nat := c.toNat - 48

/-- Lexicographic `≤` on code-point lists, as Python compares strings and as
MongoDB orders the string-typed `start_date`/`end_date`/`date` fields. -/
def charsLe : List Char → List Char → Bool
  | [], _ => true
  | _ :: _, [] => false
  | a :: as, b :: bs => if a < b then true else if b < a then false else charsLe as bs

/-- Python `a <= b` on strings (and Mongo `$lte`/`$gte` on string fields). -/
def strLe (a b : String) : Bool := charsLe a.data b.data

/-! ### `datetime.strptime` parsing (utils.parse_date / parse_time) -/

/-- Calendar value produced by `datetime.strptime(s, "%Y-%m-%d")`. -/
structure DateV where
  y : Nat
  m : Nat
  d : Nat
deriving DecidableEq, Repr

/-- Clock value produced by `datetime.strptime(s, "%H:%M")`. -/
structure TimeV where
  hh : Nat
  mm : Nat
deriving DecidableEq, Repr

/-- Gregorian leap-year rule used by Python's `datetime`. -/
def isLeapYear (y : Nat) : Bool := y % 4 == 0 && (y % 100 != 0 || y % 400 == 0)

/-- Length of a month, as validated by the `datetime` constructor. -/
def daysInMonth (y m : Nat) : Nat :=
  if m == 2 then (if isLeapYear y then 29 else 28)
  else if m == 4 || m == 6 || m == 9 || m == 11 then 30
  else 31

/-- CPython `%m` token: `1[0-2]|0[1-9]|[1-9]` (one or two characters). -/
def parseMonthChars : List Char → Option Nat
  | [c1] => if isDig c1 && c1 != '0' then some (digitVal c1) else none
  | [c1, c2] =>
    if c1 == '1' && (48 ≤ c2.toNat && c2.toNat ≤ 50) then some (10 + digitVal c2)
    else if c1 == '0' && isDig c2 && c2 != '0' then some (digitVal c2)
    else none
  | _ => none

/-- CPython `%d` token: `3[01]|[12]\d|0[1-9]|[1-9]` (one or two characters). -/
def parseDayChars : List Char → Option Nat
  | [c1] => if isDig c1 && c1 != '0' then some (digitVal c1) else none
  | [c1, c2] =>
    if c1 == '3' && (c2 == '0' || c2 == '1') then some (30 + digitVal c2)
    else if (c1 == '1' || c1 == '2') && isDig c2 then some (10 * digitVal c1 + digitVal c2)
    else if c1 == '0' && isDig c2 && c2 != '0' then some (digitVal c2)
    else none
  | _ => none

/-- Year token `\d\d\d\d` plus month/day tokens, followed by the `datetime`
constructor's range check (`MINYEAR = 1`, day within the month). -/
def mkDateV (y1 y2 y3 y4 : Char) (mcs dcs : List Char) : Option DateV :=
  if isDig y1 && isDig y2 && isDig y3 && isDig y4 then
    let y := 1000 * digitVal y1 + 100 * digitVal y2 + 10 * digitVal y3 + digitVal y4
    match parseMonthChars mcs, parseDayChars dcs with
    | some m, some d =>
        if 1 ≤ y && d ≤ daysInMonth y m then some ⟨y, m, d⟩ else none
    | _, _ => none
  else none

/-- `utils.parse_date`: `datetime.strptime(date_str, "%Y-%m-%d")`, requiring the
whole string to match. The three list shapes are the possible dash positions
(month and day may each be one or two characters). -/
def parse_date (s : String) : Option DateV :=
  match s.data with
  | [a, b, c, d, e, f, g, h] =>
      if e == '-' && g == '-' then mkDateV a b c d [f] [h] else none
  | [a, b, c, d, e, f, g, h, i] =>
      if e == '-' && g == '-' then mkDateV a b c d [f] [h, i]
      else if e == '-' && h == '-' then mkDateV a b c d [f, g] [i]
      else none
  | [a, b, c, d, e, f, g, h, i, j] =>
      if e == '-' && h == '-' then mkDateV a b c d [f, g] [i, j] else none
  | _ => none

/-- `utils.validate_date_format`: `strptime` succeeds on `"%Y-%m-%d"`. -/
def validate_date_format (s : String) : Bool := (parse_date s).isSome

/-- CPython `%H` token: `2[0-3]|[0-1]\d|\d`. -/
def parseHourChars : List Char → Option Nat
  | [c1] => if isDig c1 then some (digitVal c1) else none
  | [c1, c2] =>
    if (c1 == '0' || c1 == '1') && isDig c2 then some (10 * digitVal c1 + digitVal c2)
    else if c1 == '2' && (48 ≤ c2.toNat && c2.toNat ≤ 51) then some (20 + digitVal c2)
    else none
  | _ => none

/-- CPython `%M` token: `[0-5]\d|\d`. -/
def parseMinuteChars : List Char → Option Nat
  | [c1] => if isDig c1 then some (digitVal c1) else none
  | [c1, c2] =>
    if (48 ≤ c1.toNat && c1.toNat ≤ 53) && isDig c2 then
      some (10 * digitVal c1 + digitVal c2)
    else none
  | _ => none

/-- Combine an hour token and a minute token. -/
def mkTimeV (hcs mcs : List Char) : Option TimeV :=
  match parseHourChars hcs, parseMinuteChars mcs with
  | some hh, some mm => some ⟨hh, mm⟩
  | _, _ => none

/-- `utils.parse_time`: `datetime.strptime(time_str, "%H:%M")`, full match.
The list shapes are the possible colon positions. -/
def parse_time (s : String) : Option TimeV :=
  match s.data with
  | [a, b, c] => if b == ':' then mkTimeV [a] [c] else none
  | [a, b, c, d] =>
      if b == ':' then mkTimeV [a] [c, d]
      else if c == ':' then mkTimeV [a, b] [d]
      else none
  | [a, b, c, d, e] => if c == ':' then mkTimeV [a, b] [d, e] else none
  | _ => none

/-- Minute part of the `utils.validate_time_slot` regex: exactly `[0-5][0-9]`. -/
def minutePairOk (m1 m2 : Char) : Bool := (48 ≤ m1.toNat && m1.toNat ≤ 53) && isDig m2

/-- Two-character hour of `utils.validate_time_slot`: `[01][0-9]|2[0-3]`. -/
def hourPairOk (h1 h2 : Char) : Bool :=
  ((h1 == '0' || h1 == '1') && isDig h2) || (h1 == '2' && (48 ≤ h2.toNat && h2.toNat ≤ 51))

/-- `utils.validate_time_slot`: `re.match` with the regex
`^([01]?[0-9]|2[0-3]):[0-5][0-9]$`. The hour may be one digit (`[0-9]`) or two
(`[01][0-9]|2[0-3]`); the minute is always exactly two characters. Python's
`$` (without `re.MULTILINE`) matches at the end of the string or just before
one trailing newline, so each accepted shape is also accepted with a single
trailing newline appended — the four list shapes below. -/
def validate_time_slot (s : String) : Bool :=
  match s.data with
  | [h1, c, m1, m2] => c == ':' && isDig h1 && minutePairOk m1 m2
  | [a, b, c, d, e] =>
      (b == ':' && isDig a && minutePairOk c d && e == '\n') ||
      (c == ':' && hourPairOk a b && minutePairOk d e)
  | [a, b, c, d, e, f] => c == ':' && hourPairOk a b && minutePairOk d e && f == '\n'
  | _ => false

/-! ### Instants and `is_future_datetime` -/

/-- A `datetime` value: Python compares these lexicographically by
(year, month, day, hour, minute). -/
structure Instant where
  date : DateV
  time : TimeV
deriving DecidableEq, Repr

/-- Strict `<` on instants, matching Python `datetime` comparison. -/
def instantLt (a b : Instant) : Bool :=
  a.date.y < b.date.y ||
  (a.date.y == b.date.y && (a.date.m < b.date.m ||
   (a.date.m == b.date.m && (a.date.d < b.date.d ||
    (a.date.d == b.date.d && (a.time.hh < b.time.hh ||
     (a.time.hh == b.time.hh && a.time.mm < b.time.mm)))))))

/-- `utils.combine_date_time`; `none` models the `ValueError` that `strptime`
raises on a string that does not parse. -/
def combine_date_time (d t : String) : Option Instant :=
  match parse_date d, parse_time t with
  | some dv, some tv => some ⟨dv, tv⟩
  | _, _ => none

/-- `utils.is_future_datetime`: the combined instant is strictly later than
`datetime.now()`. -/
def is_future_datetime (now : Instant) (d t : String) : Option Bool :=
  (combine_date_time d t).map (fun i => instantLt now i)

/-! ### Python `round(x, 2)` over `ℚ` -/

/-- Floor of a rational, computed with integer floor division (kernel-reducible,
unlike `Int.floor` on `ℚ`). -/
def ratFloor (q : ℚ) : ℤ := q.num.fdiv q.den

/-- Round to the nearest integer, ties to the even integer — the rounding rule
of Python's built-in `round`. -/
def roundHalfEven (q : ℚ) : ℤ :=
  if q - (ratFloor q : ℚ) < 1 / 2 then ratFloor q
  else if 1 / 2 < q - (ratFloor q : ℚ) then ratFloor q + 1
  else if ratFloor q % 2 = 0 then ratFloor q else ratFloor q + 1

/-- Python `round(x, 2)`: round to the nearest multiple of `1/100`. -/
def pyRound2 (q : ℚ) : ℚ := (roundHalfEven (q * 100) : ℚ) / 100

/-- `utils.calculate_discounted_price`: percentage and flat discounts, then
`max(0, round(final_price, 2))`. An unrecognised `discount_type` falls through
with `final_price = base_price`. -/
def calculate_discounted_price (base_price : ℚ) (discount_type : String)
    (discount_value : ℚ) : ℚ :=
  let final_price :=
    if discount_type = "percentage" then base_price - base_price * (discount_value / 100)
    else if discount_type = "flat" then base_price - discount_value
    else base_price
  max 0 (pyRound2 final_price)

/-! ### Data model -/

/-- A customer document (the fields `create_booking` reads). -/
structure User where
  id : Nat
  name : String
  email : String
deriving DecidableEq, Repr

/-- A service document (the fields the booking and discount paths read). -/
structure Service where
  id : Nat
  title : String
  base_price : ℚ
  status : String
deriving DecidableEq, Repr

/-- A discount document. -/
structure Discount where
  id : Nat
  service_id : Nat
  discount_type : String
  discount_value : ℚ
  start_date : String
  end_date : String
  is_active : Bool
deriving DecidableEq, Repr

/-- A booking document, as built in `create_booking`. -/
structure Booking where
  id : Nat
  customer_id : Nat
  customer_name : String
  customer_email : String
  service_id : Nat
  service_title : String
  date : String
  time_slot : String
  base_price : ℚ
  final_price : ℚ
  discount_applied : Bool
  status : String
  notes : String
deriving DecidableEq, Repr

/-- A staff document (the fields the attendance path reads). -/
structure Staff where
  id : Nat
  full_name : String
  is_deleted : Bool
deriving DecidableEq, Repr

/-- An attendance document. -/
structure Attendance where
  id : Nat
  staff_id : Nat
  staff_name : String
  date : String
  check_in_time : String
  check_out_time : Option String
  attendance_status : String
deriving DecidableEq, Repr

/-- The document store. `nextId` models fresh `ObjectId` generation for
inserted documents. -/
structure DB where
  users : List User
  services : List Service
  discounts : List Discount
  bookings : List Booking
  staff : List Staff
  attendance : List Attendance
  nextId : Nat
deriving DecidableEq, Repr

/-- The store at process start: every collection empty. -/
def initDB : DB := ⟨[], [], [], [], [], [], 0⟩

/-- Domain errors, one constructor per distinct handler response. The 409
responses of `create_booking` (both the pre-check and the caught
`DuplicateKeyError`) are the single constructor `slotTaken`. `internalError`
models an uncaught Python exception (a 500). -/
inductive ApiError where
  | validationError (msg : String)
  | notFound (msg : String)
  | forbidden (msg : String)
  | serviceUnavailable
  | slotTaken
  | conflict
  | alreadyCheckedIn
  | invalidTransition (currentStatus : String)
  | pastBooking
  | internalError
deriving DecidableEq, Repr

/-- HTTP status code attached to each error by the handlers in `app.py`. -/
def ApiError.httpStatus : ApiError → Nat
  | .validationError _ => 400
  | .notFound _ => 404
  | .forbidden _ => 403
  | .serviceUnavailable => 400
  | .slotTaken => 409
  | .conflict => 409
  | .alreadyCheckedIn => 409
  | .invalidTransition _ => 400
  | .pastBooking => 400
  | .internalError => 500

/-- Response body message for the errors whose wording the spec quotes. -/
def ApiError.message : ApiError → String
  | .validationError m => m
  | .notFound m => m
  | .forbidden m => m
  | .serviceUnavailable => "Service is not available"
  | .slotTaken => "This time slot is already booked"
  | .conflict => "An active discount already exists for this service in the specified date range"
  | .alreadyCheckedIn => "Check-in already recorded for this staff on this date"
  | .invalidTransition s => "Cannot cancel a booking with status " ++ s
  | .pastBooking => "Cannot cancel past bookings"
  | .internalError => "Internal server error"

/-- Does an `Except` result carry a `ValidationError` (a 400 from input
validation)? -/
def isValidationErr {α : Type} : Except ApiError α → Bool
  | .error (.validationError _) => true
  | _ => false

/-- Does an `Except` result carry an `InvalidTransition` error? -/
def isInvalidTransitionErr {α : Type} : Except ApiError α → Bool
  | .error (.invalidTransition _) => true
  | _ => false

/-! ### Lookups and pricing (app.py helpers) -/

/-- `find_one({'_id': ObjectId(id)})` on the services collection. -/
def findService (db : DB) (sid : Nat) : Option Service :=
  db.services.find? (fun s => s.id == sid)

/-- `find_one({'_id': ObjectId(id)})` on the users collection. -/
def findUser (db : DB) (uid : Nat) : Option User :=
  db.users.find? (fun u => u.id == uid)

/-- `find_one({'_id': ObjectId(id)})` on the bookings collection. -/
def findBooking (db : DB) (bid : Nat) : Option Booking :=
  db.bookings.find? (fun b => b.id == bid)

/-- `find_one({'_id': ObjectId(id)})` on the discounts collection. -/
def findDiscount (db : DB) (did : Nat) : Option Discount :=
  db.discounts.find? (fun d => d.id == did)

/-- `find_one({'_id': ObjectId(id), 'is_deleted': False})` on the staff
collection — the lookup `attendance_checkin` performs. -/
def findActiveStaff (db : DB) (sid : Nat) : Option Staff :=
  db.staff.find? (fun s => s.id == sid && !s.is_deleted)

/-- `app.get_active_discount`: first discount for the service that is active
and whose `[start_date, end_date]` window contains today (string-compared). -/
def get_active_discount (db : DB) (today : String) (service_id : Nat) : Option Discount :=
  db.discounts.find? (fun d =>
    d.service_id == service_id && d.is_active &&
    strLe d.start_date today && strLe today d.end_date)

/-- `app.calculate_booking_price`: `(final_price, discount_applied)`. -/
def calculate_booking_price (db : DB) (today : String) (service : Service) : ℚ × Bool :=
  match get_active_discount db today service.id with
  | some discount =>
      (calculate_discounted_price service.base_price discount.discount_type
        discount.discount_value, true)
  | none => (service.base_price, false)

/-! ### Booking operations -/

/-- The duplicate pre-check of `create_booking`: an existing booking with the
same `(service_id, date, time_slot)` and status not in `['Cancelled']`. -/
def slotPrecheckTaken (db : DB) (sid : Nat) (date ts : String) : Bool :=
  db.bookings.any (fun b =>
    b.service_id == sid && b.date == date && b.time_slot == ts && b.status != "Cancelled")

/-- The store-level unique index on `(service_id, date, time_slot)` declared at
`app.py:143`. It covers every status, so an insert duplicating the triple of
any existing row — Cancelled included — raises `DuplicateKeyError`. -/
def bookingIndexViolation (db : DB) (sid : Nat) (date ts : String) : Bool :=
  db.bookings.any (fun b =>
    b.service_id == sid && b.date == date && b.time_slot == ts)

/-- The booking document built in `create_booking`: snapshots of the customer
and service fields, the resolved price, and initial status Pending. -/
def mkBookingDoc (db : DB) (today : String) (customer_id service_id : Nat)
    (date time_slot notes : String) (customer : User) (service : Service) : Booking :=
  { id := db.nextId
    customer_id := customer_id
    customer_name := customer.name
    customer_email := customer.email
    service_id := service_id
    service_title := service.title
    date := date
    time_slot := time_slot
    base_price := service.base_price
    final_price := (calculate_booking_price db today service).1
    discount_applied := (calculate_booking_price db today service).2
    status := "Pending"
    notes := notes }

/-- `POST /api/bookings` (`app.create_booking`), for the authenticated
customer `customer_id`. Checks in source order: required fields, date format,
time-slot format, future instant, service existence, service active, slot
pre-check; then builds the document, resolves the price, and inserts it —
mapping a `DuplicateKeyError` from the unique index to the same 409 as the
pre-check. -/
def create_booking (db : DB) (now : Instant) (today : String) (customer_id : Nat)
    (service_id : Nat) (date time_slot notes : String) :
    Except ApiError (DB × Booking) :=
  if date = "" ∨ time_slot = "" then
    .error (.validationError "Missing required fields")
  else if !validate_date_format date then
    .error (.validationError "Invalid date format. Use YYYY-MM-DD")
  else if !validate_time_slot time_slot then
    .error (.validationError "Invalid time slot format. Use HH:MM")
  else
    match is_future_datetime now date time_slot with
    | none => .error .internalError
    | some fut =>
      if !fut then .error (.validationError "Booking must be for a future date and time")
      else
        match findService db service_id with
        | none => .error (.notFound "Service not found")
        | some service =>
          if service.status ≠ "Active" then .error .serviceUnavailable
          else if slotPrecheckTaken db service_id date time_slot then .error .slotTaken
          else
            match findUser db customer_id with
            | none => .error .internalError
            | some customer =>
              if bookingIndexViolation db service_id date time_slot then .error .slotTaken
              else
                .ok ({ db with
                        bookings := db.bookings ++
                          [mkBookingDoc db today customer_id service_id date time_slot notes
                            customer service],
                        nextId := db.nextId + 1 },
                     mkBookingDoc db today customer_id service_id date time_slot notes
                       customer service)

/-- `update_one({'_id': bid}, {'$set': {'status': st}})` on bookings. -/
def setBookingStatus (db : DB) (bid : Nat) (st : String) : DB :=
  { db with bookings := db.bookings.map (fun b => if b.id == bid then { b with status := st } else b) }

/-- `PUT /api/bookings/<id>/cancel` (`app.cancel_booking`), for the
authenticated customer `customer_id`. Ordered checks: existence, ownership,
current status not in `['Cancelled', 'Completed']`, slot instant still in the
future; then sets the status to Cancelled. -/
def cancel_booking (db : DB) (now : Instant) (customer_id : Nat) (booking_id : Nat) :
    Except ApiError DB :=
  match findBooking db booking_id with
  | none => .error (.notFound "Booking not found")
  | some booking =>
    if booking.customer_id ≠ customer_id then
      .error (.forbidden "Unauthorized to cancel this booking")
    else if booking.status = "Cancelled" ∨ booking.status = "Completed" then
      .error (.invalidTransition booking.status)
    else
      match is_future_datetime now booking.date booking.time_slot with
      | none => .error .internalError
      | some fut =>
        if !fut then .error .pastBooking
        else .ok (setBookingStatus db booking_id "Cancelled")

/-- The store after a cancellation attempt: unchanged when the handler
returned early with an error. -/
def cancelRun (db : DB) (now : Instant) (customer_id booking_id : Nat) : DB :=
  match cancel_booking db now customer_id booking_id with
  | .ok db2 => db2
  | .error _ => db

/-- `PUT /api/admin/bookings/<id>/status` (`app.update_booking_status`),
admin-only. `status = none` models a request body without the key. Validates
membership in the four statuses before even loading the booking, then sets the
status unconditionally; returns `(new store, old status, new status)`. -/
def update_booking_status (db : DB) (booking_id : Nat) (status : Option String) :
    Except ApiError (DB × String × String) :=
  match status with
  | none => .error (.validationError "Status is required")
  | some new_status =>
    if ¬ (new_status = "Pending" ∨ new_status = "Confirmed" ∨
          new_status = "Completed" ∨ new_status = "Cancelled") then
      .error (.validationError "Invalid status. Must be one of: Pending, Confirmed, Completed, Cancelled")
    else
      match findBooking db booking_id with
      | none => .error (.notFound "Booking not found")
      | some booking =>
        .ok (setBookingStatus db booking_id new_status, booking.status, new_status)

/-- The store after an admin status update: unchanged on error. -/
def statusRun (db : DB) (booking_id : Nat) (status : Option String) : DB :=
  match update_booking_status db booking_id status with
  | .ok (db2, _, _) => db2
  | .error _ => db

/-! ### Discount operations -/

/-- The overlap query of `create_discount` (`app.py:588`): an active discount
for the service with `start_date ≤ new end` and `end_date ≥ new start`
(inclusive, string-compared). -/
def discountOverlapExists (db : DB) (sid : Nat) (start_date end_date : String) : Bool :=
  db.discounts.any (fun d =>
    d.service_id == sid && d.is_active &&
    strLe d.start_date end_date && strLe start_date d.end_date)

/-- The discount document built in `create_discount`: `is_active` defaults to
true. -/
def mkDiscountDoc (db : DB) (service_id : Nat) (discount_type : String)
    (discount_value : ℚ) (start_date end_date : String) : Discount :=
  { id := db.nextId
    service_id := service_id
    discount_type := discount_type
    discount_value := discount_value
    start_date := start_date
    end_date := end_date
    is_active := true }

/-- `POST /api/discounts` (`app.create_discount`), admin-only. Checks in
source order: required fields, service existence, type in
`{percentage, flat}`, value > 0, percentage ≤ 100, both date formats,
start ≤ end (Python string comparison), then the overlap query; inserts with
`is_active = True`. -/
def create_discount (db : DB) (service_id : Nat) (discount_type : String)
    (discount_value : ℚ) (start_date end_date : String) :
    Except ApiError (DB × Discount) :=
  if discount_type = "" ∨ start_date = "" ∨ end_date = "" then
    .error (.validationError "Missing required fields")
  else
    match findService db service_id with
    | none => .error (.notFound "Service not found")
    | some _ =>
      if ¬ (discount_type = "percentage" ∨ discount_type = "flat") then
        .error (.validationError "Discount type must be percentage or flat")
      else if discount_value ≤ 0 then
        .error (.validationError "Discount value must be greater than 0")
      else if discount_type = "percentage" ∧ 100 < discount_value then
        .error (.validationError "Percentage discount cannot exceed 100")
      else if !validate_date_format start_date || !validate_date_format end_date then
        .error (.validationError "Invalid date format. Use YYYY-MM-DD")
      else if !strLe start_date end_date then
        .error (.validationError "Start date must be before end date")
      else if discountOverlapExists db service_id start_date end_date then
        .error .conflict
      else
        .ok ({ db with
                discounts := db.discounts ++
                  [mkDiscountDoc db service_id discount_type discount_value start_date end_date],
                nextId := db.nextId + 1 },
             mkDiscountDoc db service_id discount_type discount_value start_date end_date)

/-- The store after a discount-creation attempt: unchanged on error. -/
def createDiscountRun (db : DB) (service_id : Nat) (discount_type : String)
    (discount_value : ℚ) (start_date end_date : String) : DB :=
  match create_discount db service_id discount_type discount_value start_date end_date with
  | .ok (db2, _) => db2
  | .error _ => db

/-- The request body of `PUT /api/discounts/<id>`: each field present or
absent. -/
structure DiscountPatch where
  discount_type : Option String
  discount_value : Option ℚ
  start_date : Option String
  end_date : Option String
  is_active : Option Bool
deriving DecidableEq, Repr

/-- `update_discount` check: a supplied `discount_type` outside
`{percentage, flat}`. -/
def patchTypeBad (p : DiscountPatch) : Bool :=
  match p.discount_type with
  | some t => ¬ (t = "percentage" ∨ t = "flat")
  | none => false

/-- `update_discount` check: a supplied `discount_value ≤ 0`. -/
def patchValueNonpos (p : DiscountPatch) : Bool :=
  match p.discount_value with
  | some v => v ≤ 0
  | none => false

/-- `update_discount` check: a supplied value over 100 while the merged type
(`data.get('discount_type', existing)`) is percentage. -/
def patchValueOver100 (disc : Discount) (p : DiscountPatch) : Bool :=
  match p.discount_value with
  | some v => p.discount_type.getD disc.discount_type = "percentage" ∧ 100 < v
  | none => false

/-- `update_discount` check: a supplied `start_date` that does not parse. -/
def patchStartBad (p : DiscountPatch) : Bool :=
  match p.start_date with
  | some s => !validate_date_format s
  | none => false

/-- `update_discount` check: a supplied `end_date` that does not parse. -/
def patchEndBad (p : DiscountPatch) : Bool :=
  match p.end_date with
  | some e => !validate_date_format e
  | none => false

/-- The discount document after applying the `$set` of `update_discount`:
each supplied field overwrites, each absent field keeps its stored value. -/
def mergePatch (disc : Discount) (p : DiscountPatch) : Discount :=
  { disc with
    discount_type := p.discount_type.getD disc.discount_type
    discount_value := p.discount_value.getD disc.discount_value
    start_date := p.start_date.getD disc.start_date
    end_date := p.end_date.getD disc.end_date
    is_active := p.is_active.getD disc.is_active }

/-- `PUT /api/discounts/<id>` (`app.update_discount`), admin-only. Validates
each supplied field in source order, then the merged start/end ordering, and
applies the update. The handler performs no overlap query. -/
def update_discount (db : DB) (discount_id : Nat) (p : DiscountPatch) :
    Except ApiError (DB × Discount) :=
  match findDiscount db discount_id with
  | none => .error (.notFound "Discount not found")
  | some discount =>
    if patchTypeBad p then
      .error (.validationError "Discount type must be percentage or flat")
    else if patchValueNonpos p then
      .error (.validationError "Discount value must be greater than 0")
    else if patchValueOver100 discount p then
      .error (.validationError "Percentage discount cannot exceed 100")
    else if patchStartBad p then
      .error (.validationError "Invalid start date format. Use YYYY-MM-DD")
    else if patchEndBad p then
      .error (.validationError "Invalid end date format. Use YYYY-MM-DD")
    else if !strLe (p.start_date.getD discount.start_date) (p.end_date.getD discount.end_date) then
      .error (.validationError "Start date must be before end date")
    else
      let updated := mergePatch discount p
      .ok ({ db with discounts :=
              db.discounts.map (fun d => if d.id == discount_id then updated else d) },
           updated)

/-- All `update_discount` validations at once (the handler succeeds exactly
when this holds, given the discount exists). -/
def patchValid (disc : Discount) (p : DiscountPatch) : Bool :=
  !patchTypeBad p && !patchValueNonpos p && !patchValueOver100 disc p &&
  !patchStartBad p && !patchEndBad p &&
  strLe (p.start_date.getD disc.start_date) (p.end_date.getD disc.end_date)

/-- `DELETE /api/discounts/<id>` (`app.delete_discount`): sets
`is_active = False`, never removes the document. -/
def delete_discount (db : DB) (discount_id : Nat) : Except ApiError DB :=
  match findDiscount db discount_id with
  | none => .error (.notFound "Discount not found")
  | some _ =>
    .ok { db with discounts :=
            db.discounts.map (fun d =>
              if d.id == discount_id then { d with is_active := false } else d) }

/-! ### Attendance operations -/

/-- The pre-check of `attendance_checkin`: a record for `(staff_id, date)`
already exists. -/
def attendanceExists (db : DB) (sid : Nat) (date : String) : Bool :=
  db.attendance.any (fun a => a.staff_id == sid && a.date == date)

/-- The store-level unique index on `(staff_id, date)` declared at
`app.py:145`: inserting a second record for the pair raises
`DuplicateKeyError`. -/
def attendanceIndexViolation (db : DB) (sid : Nat) (date : String) : Bool :=
  db.attendance.any (fun a => a.staff_id == sid && a.date == date)

/-- Python's `data.get(key) or datetime.now().strftime("%H:%M")`: an absent or
empty (falsy) value falls back to the current clock time. -/
def effectiveTime (supplied : Option String) (nowTime : String) : String :=
  match supplied with
  | some t => if t = "" then nowTime else t
  | none => nowTime

/-- The attendance document built in `attendance_checkin`: status Present,
no check-out time yet. -/
def mkAttendanceDoc (db : DB) (nowTime : String) (staff_id : Nat) (date : String)
    (check_in_time : Option String) (staff : Staff) : Attendance :=
  { id := db.nextId
    staff_id := staff_id
    staff_name := staff.full_name
    date := date
    check_in_time := effectiveTime check_in_time nowTime
    check_out_time := none
    attendance_status := "Present" }

/-- `POST /api/admin/attendance/check-in` (`app.attendance_checkin`),
admin-only. Checks in source order: required fields, date format, staff exists
and is not soft-deleted, no record yet for `(staff_id, date)`, check-in time
format (defaulting to the current time when absent or empty — Python's
`data.get('check_in_time') or now`); inserts with status Present and no
check-out time. The handler does not catch `DuplicateKeyError`
(`internalError` models that uncaught exception). -/
def attendance_checkin (db : DB) (nowTime : String) (staff_id : Nat) (date : String)
    (check_in_time : Option String) : Except ApiError (DB × Attendance) :=
  if date = "" then
    .error (.validationError "Missing required fields")
  else if !validate_date_format date then
    .error (.validationError "Invalid date format. Use YYYY-MM-DD")
  else
    match findActiveStaff db staff_id with
    | none => .error (.notFound "Staff not found or inactive")
    | some staff =>
      if attendanceExists db staff_id date then .error .alreadyCheckedIn
      else
        if !validate_time_slot (effectiveTime check_in_time nowTime) then
          .error (.validationError "Invalid check_in_time format. Use HH:MM")
        else if attendanceIndexViolation db staff_id date then .error .internalError
        else
          .ok ({ db with
                  attendance := db.attendance ++
                    [mkAttendanceDoc db nowTime staff_id date check_in_time staff],
                  nextId := db.nextId + 1 },
               mkAttendanceDoc db nowTime staff_id date check_in_time staff)

/-- `PUT /api/admin/attendance/check-out` (`app.attendance_checkout`),
admin-only. Requires an existing record for `(staff_id, date)`; sets the
check-out time (defaulting to now) and the attendance status (defaulting to
the stored one), both validated. -/
def attendance_checkout (db : DB) (nowTime : String) (staff_id : Nat) (date : String)
    (check_out_time : Option String) (attendance_status : Option String) :
    Except ApiError DB :=
  if date = "" then
    .error (.validationError "Missing required fields")
  else if !validate_date_format date then
    .error (.validationError "Invalid date format. Use YYYY-MM-DD")
  else
    match db.attendance.find? (fun a => a.staff_id == staff_id && a.date == date) with
    | none => .error (.notFound "No check-in record found for this staff on this date")
    | some record =>
      if !validate_time_slot (effectiveTime check_out_time nowTime) then
        .error (.validationError "Invalid check_out_time format. Use HH:MM")
      else
        if ¬ (attendance_status.getD record.attendance_status = "Present" ∨
              attendance_status.getD record.attendance_status = "Absent" ∨
              attendance_status.getD record.attendance_status = "Half-day") then
          .error (.validationError "attendance_status must be Present, Absent, or Half-day")
        else
          .ok { db with attendance :=
                  db.attendance.map (fun a =>
                    if a.id == record.id then
                      { a with
                        check_out_time := some (effectiveTime check_out_time nowTime),
                        attendance_status := attendance_status.getD record.attendance_status }
                    else a) }

/-- The request body of `PUT /api/admin/attendance/<id>`: `check_out_time`
may be supplied as null (`some none`). -/
structure AttendancePatch where
  check_in_time : Option String
  check_out_time : Option (Option String)
  attendance_status : Option String
deriving DecidableEq, Repr

/-- `PUT /api/admin/attendance/<id>` (`app.update_attendance`), admin-only:
the correction path; validates each supplied field and applies the `$set`.
Neither `staff_id` nor `date` can be changed. -/
def update_attendance (db : DB) (attendance_id : Nat) (p : AttendancePatch) :
    Except ApiError DB :=
  match db.attendance.find? (fun a => a.id == attendance_id) with
  | none => .error (.notFound "Attendance record not found")
  | some _ =>
    if (match p.check_in_time with
        | some t => !validate_time_slot t
        | none => false) then
      .error (.validationError "Invalid check_in_time format. Use HH:MM")
    else if (match p.check_out_time with
        | some (some t) => !validate_time_slot t
        | _ => false) then
      .error (.validationError "Invalid check_out_time format. Use HH:MM")
    else if (match p.attendance_status with
        | some st => !(st == "Present" || st == "Absent" || st == "Half-day")
        | none => false) then
      .error (.validationError "attendance_status must be Present, Absent, or Half-day")
    else
      .ok { db with attendance :=
              db.attendance.map (fun a =>
                if a.id == attendance_id then
                  { a with
                    check_in_time := p.check_in_time.getD a.check_in_time
                    check_out_time := p.check_out_time.getD a.check_out_time
                    attendance_status := p.attendance_status.getD a.attendance_status }
                else a) }

/-! ### The transition system

One constructor per successful endpoint call that writes to the `bookings` or
`attendance` collections; every other endpoint (auth, service, staff and
discount CRUD, and every failed call) leaves both collections untouched and is
covered by `frame` (checked against every collection write in `app.py`). -/

/-- One successful state-changing request. -/
inductive Step : DB → DB → Prop where
  | createBooking {db db2 : DB} {bk : Booking} (now : Instant) (today : String)
      (cid sid : Nat) (date ts notes : String)
      (h : create_booking db now today cid sid date ts notes = .ok (db2, bk)) : Step db db2
  | cancelBooking {db db2 : DB} (now : Instant) (cid bid : Nat)
      (h : cancel_booking db now cid bid = .ok db2) : Step db db2
  | adminSetStatus {db db2 : DB} {old new : String} (bid : Nat) (st : Option String)
      (h : update_booking_status db bid st = .ok (db2, old, new)) : Step db db2
  | checkin {db db2 : DB} {a : Attendance} (nowTime : String) (sid : Nat) (date : String)
      (cit : Option String)
      (h : attendance_checkin db nowTime sid date cit = .ok (db2, a)) : Step db db2
  | checkout {db db2 : DB} (nowTime : String) (sid : Nat) (date : String)
      (cot ast : Option String)
      (h : attendance_checkout db nowTime sid date cot ast = .ok db2) : Step db db2
  | updateAttendance {db db2 : DB} (aid : Nat) (p : AttendancePatch)
      (h : update_attendance db aid p = .ok db2) : Step db db2
  | frame {db db2 : DB} (hb : db2.bookings = db.bookings)
      (ha : db2.attendance = db.attendance) : Step db db2

/-- Store states reachable from process start. -/
inductive Reach : DB → Prop where
  | init : Reach initDB
  | step {db db2 : DB} (hr : Reach db) (hs : Step db db2) : Reach db2

/-! ### Inversion lemmas for successful operations -/

theorem create_booking_ok_inv {db db2 : DB} {bk : Booking} {now : Instant} {today : String}
    {cid sid : Nat} {date ts notes : String}
    (h : create_booking db now today cid sid date ts notes = .ok (db2, bk)) :
    db2.bookings = db.bookings ++ [bk] ∧
    db2.attendance = db.attendance ∧
    bk.service_id = sid ∧ bk.date = date ∧ bk.time_slot = ts ∧
    bk.status = "Pending" ∧
    slotPrecheckTaken db sid date ts = false ∧
    bookingIndexViolation db sid date ts = false ∧
    (∀ svc, findService db sid = some svc →
      bk.final_price = (calculate_booking_price db today svc).1 ∧
      bk.discount_applied = (calculate_booking_price db today svc).2 ∧
      bk.base_price = svc.base_price) := by
  unfold create_booking at h
  repeat' split at h
  all_goals try exact Except.noConfusion h
  rename_i hreq hdf hts xf fut hfut hfutb xs service hservice hstat hpre xu customer hcust hidx
  injection h with h1
  injection h1 with h2 h3
  subst h2
  subst h3
  refine ⟨rfl, rfl, rfl, rfl, rfl, rfl, by simpa using hpre, by simpa using hidx, ?_⟩
  intro svc hsvc
  rw [hservice] at hsvc
  injection hsvc with hsvc
  subst hsvc
  exact ⟨rfl, rfl, rfl⟩

theorem cancel_booking_ok_inv {db db2 : DB} {now : Instant} {cid bid : Nat}
    (h : cancel_booking db now cid bid = .ok db2) :
    db2 = setBookingStatus db bid "Cancelled" := by
  unfold cancel_booking at h
  repeat' split at h
  all_goals try exact Except.noConfusion h
  injection h with h1
  exact h1.symm

theorem update_booking_status_ok_inv {db db2 : DB} {bid : Nat} {st : Option String}
    {old new : String}
    (h : update_booking_status db bid st = .ok (db2, old, new)) :
    db2 = setBookingStatus db bid new := by
  unfold update_booking_status at h
  repeat' split at h
  all_goals try exact Except.noConfusion h
  injection h with h1
  injection h1 with h2 h3
  injection h3 with h4 h5
  subst h2
  subst h5
  rfl

theorem attendance_checkin_ok_inv {db db2 : DB} {a : Attendance} {nowTime : String}
    {sid : Nat} {date : String} {cit : Option String}
    (h : attendance_checkin db nowTime sid date cit = .ok (db2, a)) :
    db2.attendance = db.attendance ++ [a] ∧
    db2.bookings = db.bookings ∧
    a.staff_id = sid ∧ a.date = date ∧
    a.attendance_status = "Present" ∧ a.check_out_time = none ∧
    attendanceExists db sid date = false := by
  unfold attendance_checkin at h
  repeat' split at h
  all_goals try exact Except.noConfusion h
  rename_i hdate hdf xs staff hstaff hex hcit hdup
  injection h with h1
  injection h1 with h2 h3
  subst h2
  subst h3
  exact ⟨rfl, rfl, rfl, rfl, rfl, rfl, by simpa using hex⟩

theorem attendance_checkout_ok_inv {db db2 : DB} {nowTime : String}
    {sid : Nat} {date : String} {cot ast : Option String}
    (h : attendance_checkout db nowTime sid date cot ast = .ok db2) :
    db2.bookings = db.bookings ∧
    ∃ f : Attendance → Attendance, db2.attendance = db.attendance.map f ∧
      ∀ x, (f x).staff_id = x.staff_id ∧ (f x).date = x.date := by
  unfold attendance_checkout at h
  repeat' split at h
  all_goals try exact Except.noConfusion h
  rename_i hdate hdf xr record hrec hcot hst
  injection h with h1
  subst h1
  refine ⟨rfl, _, rfl, ?_⟩
  intro x
  constructor <;> (dsimp only []; split <;> rfl)

theorem update_attendance_ok_inv {db db2 : DB} {aid : Nat} {p : AttendancePatch}
    (h : update_attendance db aid p = .ok db2) :
    db2.bookings = db.bookings ∧
    ∃ f : Attendance → Attendance, db2.attendance = db.attendance.map f ∧
      ∀ x, (f x).staff_id = x.staff_id ∧ (f x).date = x.date := by
  unfold update_attendance at h
  repeat' split at h
  all_goals try exact Except.noConfusion h
  rename_i xr record hrec hcit hcot hst
  injection h with h1
  subst h1
  refine ⟨rfl, _, rfl, ?_⟩
  intro x
  constructor <;> (dsimp only []; split <;> rfl)

/-! ### The two hard uniqueness invariants -/

/-- Two bookings occupying the same `(service_id, date, time_slot)` key. -/
def sameSlotKey (a b : Booking) : Prop :=
  a.service_id = b.service_id ∧ a.date = b.date ∧ a.time_slot = b.time_slot

/-- No two rows of the bookings collection share a slot key — the guarantee of
the unique index at `app.py:143` (which covers all statuses). -/
def bookingsKeyUnique (db : DB) : Prop :=
  db.bookings.Pairwise (fun a b => ¬ sameSlotKey a b)

/-- Two attendance records for the same `(staff_id, date)` pair. -/
def sameDayKey (a b : Attendance) : Prop := a.staff_id = b.staff_id ∧ a.date = b.date

/-- No two rows of the attendance collection share a `(staff_id, date)` pair —
the guarantee of the unique index at `app.py:145`. -/
def attendanceKeyUnique (db : DB) : Prop :=
  db.attendance.Pairwise (fun a b => ¬ sameDayKey a b)

theorem setBookingStatus_keyUnique {db : DB} {bid : Nat} {st : String}
    (hu : bookingsKeyUnique db) : bookingsKeyUnique (setBookingStatus db bid st) := by
  rw [bookingsKeyUnique, setBookingStatus]
  dsimp only []
  rw [List.pairwise_map]
  refine hu.imp ?_
  intro a b hab hk
  apply hab
  rcases hk with ⟨h1, h2, h3⟩
  have ka : ∀ x : Booking,
      ((if x.id == bid then { x with status := st } else x) : Booking).service_id = x.service_id ∧
      ((if x.id == bid then { x with status := st } else x) : Booking).date = x.date ∧
      ((if x.id == bid then { x with status := st } else x) : Booking).time_slot = x.time_slot := by
    intro x
    split <;> exact ⟨rfl, rfl, rfl⟩
  obtain ⟨a1, a2, a3⟩ := ka a
  obtain ⟨b1, b2, b3⟩ := ka b
  exact ⟨a1 ▸ b1 ▸ h1, a2 ▸ b2 ▸ h2, a3 ▸ b3 ▸ h3⟩

theorem step_bookingsKeyUnique {db db2 : DB} (hs : Step db db2)
    (hu : bookingsKeyUnique db) : bookingsKeyUnique db2 := by
  cases hs with
  | createBooking now today cid sid date ts notes h =>
      obtain ⟨hb, _, hsid, hdate, hts, _, _, hidx, _⟩ := create_booking_ok_inv h
      rw [bookingsKeyUnique, hb, List.pairwise_append]
      refine ⟨hu, List.pairwise_singleton _ _, ?_⟩
      intro x hx y hy
      simp only [List.mem_singleton] at hy
      subst hy
      intro hk
      rw [bookingIndexViolation, List.any_eq_false] at hidx
      have hx2 := hidx x hx
      rcases hk with ⟨h1, h2, h3⟩
      rw [hsid] at h1
      rw [hdate] at h2
      rw [hts] at h3
      simp [h1, h2, h3] at hx2
  | cancelBooking now cid bid h =>
      have hd := cancel_booking_ok_inv h
      subst hd
      exact setBookingStatus_keyUnique hu
  | adminSetStatus bid st h =>
      have hd := update_booking_status_ok_inv h
      subst hd
      exact setBookingStatus_keyUnique hu
  | checkin nowTime sid date cit h =>
      obtain ⟨_, hb, _⟩ := attendance_checkin_ok_inv h
      rw [bookingsKeyUnique, hb]
      exact hu
  | checkout nowTime sid date cot ast h =>
      obtain ⟨hb, _⟩ := attendance_checkout_ok_inv h
      rw [bookingsKeyUnique, hb]
      exact hu
  | updateAttendance aid p h =>
      obtain ⟨hb, _⟩ := update_attendance_ok_inv h
      rw [bookingsKeyUnique, hb]
      exact hu
  | frame hb ha =>
      rw [bookingsKeyUnique, hb]
      exact hu

theorem reach_bookingsKeyUnique {db : DB} (h : Reach db) : bookingsKeyUnique db := by
  induction h with
  | init => exact List.Pairwise.nil
  | step hr hs ih => exact step_bookingsKeyUnique hs ih

theorem attendanceMap_keyUnique {db : DB} {f : Attendance → Attendance}
    (hf : ∀ x, (f x).staff_id = x.staff_id ∧ (f x).date = x.date)
    (hu : attendanceKeyUnique db) :
    (db.attendance.map f).Pairwise (fun a b => ¬ sameDayKey a b) := by
  rw [List.pairwise_map]
  refine hu.imp ?_
  intro a b hab hk
  apply hab
  rcases hk with ⟨h1, h2⟩
  obtain ⟨a1, a2⟩ := hf a
  obtain ⟨b1, b2⟩ := hf b
  exact ⟨a1 ▸ b1 ▸ h1, a2 ▸ b2 ▸ h2⟩

theorem step_attendanceKeyUnique {db db2 : DB} (hs : Step db db2)
    (hu : attendanceKeyUnique db) : attendanceKeyUnique db2 := by
  cases hs with
  | createBooking now today cid sid date ts notes h =>
      obtain ⟨_, ha, _⟩ := create_booking_ok_inv h
      rw [attendanceKeyUnique, ha]
      exact hu
  | cancelBooking now cid bid h =>
      have hd := cancel_booking_ok_inv h
      subst hd
      exact hu
  | adminSetStatus bid st h =>
      have hd := update_booking_status_ok_inv h
      subst hd
      exact hu
  | checkin nowTime sid date cit h =>
      obtain ⟨ha, _, hsid, hdate, _, _, hex⟩ := attendance_checkin_ok_inv h
      rw [attendanceKeyUnique, ha, List.pairwise_append]
      refine ⟨hu, List.pairwise_singleton _ _, ?_⟩
      intro x hx y hy
      simp only [List.mem_singleton] at hy
      subst hy
      intro hk
      rw [attendanceExists, List.any_eq_false] at hex
      have hx2 := hex x hx
      rcases hk with ⟨h1, h2⟩
      rw [hsid] at h1
      rw [hdate] at h2
      simp [h1, h2] at hx2
  | checkout nowTime sid date cot ast h =>
      obtain ⟨_, f, ha, hf⟩ := attendance_checkout_ok_inv h
      rw [attendanceKeyUnique, ha]
      exact attendanceMap_keyUnique hf hu
  | updateAttendance aid p h =>
      obtain ⟨_, f, ha, hf⟩ := update_attendance_ok_inv h
      rw [attendanceKeyUnique, ha]
      exact attendanceMap_keyUnique hf hu
  | frame hb ha =>
      rw [attendanceKeyUnique, ha]
      exact hu

theorem reach_attendanceKeyUnique {db : DB} (h : Reach db) : attendanceKeyUnique db := by
  induction h with
  | init => exact List.Pairwise.nil
  | step hr hs ih => exact step_attendanceKeyUnique hs ih

/-! ### Concrete fixtures for witnesses and counterexamples -/

/-- Is an `Except` result a success? -/
def isOkE {ε α : Type} : Except ε α → Bool
  | .ok _ => true
  | .error _ => false

instance exceptDecEq {ε α : Type} [DecidableEq ε] [DecidableEq α] :
    DecidableEq (Except ε α) := fun a b =>
  match a, b with
  | .ok x, .ok y =>
      if h : x = y then .isTrue (by rw [h])
      else .isFalse (by intro hc; injection hc; exact h ‹_›)
  | .error x, .error y =>
      if h : x = y then .isTrue (by rw [h])
      else .isFalse (by intro hc; injection hc; exact h ‹_›)
  | .ok _, .error _ => .isFalse (by intro hc; exact Except.noConfusion hc)
  | .error _, .ok _ => .isFalse (by intro hc; exact Except.noConfusion hc)

/-- Fixture: an active service. -/
def exService : Service := ⟨1, "Haircut", 100, "Active"⟩

/-- Fixture: a registered customer. -/
def exUser : User := ⟨7, "Asha", "asha@example.com"⟩

/-- Fixture: the server clock, 2030-01-01 12:00. -/
def exNow : Instant := ⟨⟨2030, 1, 1⟩, ⟨12, 0⟩⟩

/-- Fixture: a pending booking of `exService` by `exUser` at a future slot. -/
def exBookingPending : Booking :=
  ⟨0, 7, "Asha", "asha@example.com", 1, "Haircut", "2031-06-01", "10:00", 100, 100, false,
   "Pending", ""⟩

/-- Fixture: the same booking, already cancelled. -/
def exBookingCancelled : Booking := { exBookingPending with status := "Cancelled" }

/-- Fixture: the same booking, already completed. -/
def exBookingCompleted : Booking := { exBookingPending with status := "Completed" }

/-- Fixture: the same booking at an elapsed slot. -/
def exBookingPast : Booking := { exBookingPending with date := "2020-01-01" }

/-- Fixture: store with the pending booking. -/
def exDBPending : DB := ⟨[exUser], [exService], [], [exBookingPending], [], [], 10⟩

/-- Fixture: store with the cancelled booking. -/
def exDBCancelled : DB := ⟨[exUser], [exService], [], [exBookingCancelled], [], [], 10⟩

/-- Fixture: store with the completed booking. -/
def exDBCompleted : DB := ⟨[exUser], [exService], [], [exBookingCompleted], [], [], 10⟩

/-- Fixture: store with the past-slot booking. -/
def exDBPast : DB := ⟨[exUser], [exService], [], [exBookingPast], [], [], 10⟩

/-! ### C1 — slot-uniqueness invariant and the two SlotTaken failure modes -/

/-- C1. In every reachable store state, at most one non-Cancelled booking
exists per `(service_id, date, time_slot)` triple (pairwise, no two rows
collide on the triple while both are non-Cancelled); `create_booking` answers
`slotTaken` both when the pre-insert query finds a non-cancelled booking for
the triple and when the unique-index violation fires on insert after a clean
pre-check; and `slotTaken` is the 409 response
"This time slot is already booked" in both modes. -/
theorem C1_slot_uniqueness :
    (∀ db : DB, Reach db →
      db.bookings.Pairwise (fun b1 b2 =>
        ¬ (b1.service_id = b2.service_id ∧ b1.date = b2.date ∧ b1.time_slot = b2.time_slot ∧
           b1.status ≠ "Cancelled" ∧ b2.status ≠ "Cancelled")))
    ∧ (∀ (db : DB) (now : Instant) (today : String) (cid sid : Nat) (date ts notes : String)
         (svc : Service),
        date ≠ "" → ts ≠ "" →
        validate_date_format date = true → validate_time_slot ts = true →
        is_future_datetime now date ts = some true →
        findService db sid = some svc → svc.status = "Active" →
        slotPrecheckTaken db sid date ts = true →
        create_booking db now today cid sid date ts notes = .error .slotTaken)
    ∧ (∀ (db : DB) (now : Instant) (today : String) (cid sid : Nat) (date ts notes : String)
         (svc : Service) (u : User),
        date ≠ "" → ts ≠ "" →
        validate_date_format date = true → validate_time_slot ts = true →
        is_future_datetime now date ts = some true →
        findService db sid = some svc → svc.status = "Active" →
        slotPrecheckTaken db sid date ts = false →
        findUser db cid = some u →
        bookingIndexViolation db sid date ts = true →
        create_booking db now today cid sid date ts notes = .error .slotTaken)
    ∧ ApiError.slotTaken.httpStatus = 409
    ∧ ApiError.slotTaken.message = "This time slot is already booked" := by
  refine ⟨?_, ?_, ?_, rfl, rfl⟩
  · intro db h
    refine (reach_bookingsKeyUnique h).imp ?_
    intro a b hn hk
    exact hn ⟨hk.1, hk.2.1, hk.2.2.1⟩
  · intro db now today cid sid date ts notes svc hd hts hdf htf hfut hsvc hstat hpre
    simp [create_booking, hd, hts, hdf, htf, hfut, hsvc, hstat, hpre]
  · intro db now today cid sid date ts notes svc u hd hts hdf htf hfut hsvc hstat hpre hu hidx
    simp [create_booking, hd, hts, hdf, htf, hfut, hsvc, hstat, hpre, hu, hidx]

/-- Witness for C1 at concrete stores: the invariant at the initial store, a
pre-check rejection against a Pending booking, and an index rejection against
a Cancelled booking (pre-check clean). -/
theorem C1_slot_uniqueness_witness :
    initDB.bookings.Pairwise (fun b1 b2 =>
      ¬ (b1.service_id = b2.service_id ∧ b1.date = b2.date ∧ b1.time_slot = b2.time_slot ∧
         b1.status ≠ "Cancelled" ∧ b2.status ≠ "Cancelled"))
    ∧ create_booking exDBPending exNow "2030-01-01" 7 1 "2031-06-01" "10:00" "" =
        .error .slotTaken
    ∧ create_booking exDBCancelled exNow "2030-01-01" 7 1 "2031-06-01" "10:00" "" =
        .error .slotTaken := by
  refine ⟨C1_slot_uniqueness.1 initDB Reach.init, ?_, ?_⟩
  · exact C1_slot_uniqueness.2.1 exDBPending exNow "2030-01-01" 7 1 "2031-06-01" "10:00" ""
      exService (by decide) (by decide) (by decide) (by decide) (by decide) (by decide)
      (by decide) (by decide)
  · exact C1_slot_uniqueness.2.2.1 exDBCancelled exNow "2030-01-01" 7 1 "2031-06-01" "10:00" ""
      exService exUser (by decide) (by decide) (by decide) (by decide) (by decide) (by decide)
      (by decide) (by decide) (by decide) (by decide)

/-! ### C2 — pricing correctness -/

/-- Fixture: a flat discount of 20 on `exService`, active around 2031-06-01. -/
def c2Discount : Discount := ⟨2, 1, "flat", 20, "2031-05-01", "2031-06-30", true⟩

/-- Fixture: store with `exService`, `exUser` and the active flat discount. -/
def c2db : DB := ⟨[exUser], [exService], [c2Discount], [], [], [], 5⟩

/-- Fixture: the server clock on the discounted day, 2031-06-01 09:00. -/
def c2now : Instant := ⟨⟨2031, 6, 1⟩, ⟨9, 0⟩⟩

/-- C2. `calculate_discounted_price` computes
`max(0, round(b * (1 - v/100), 2))` for a percentage discount and
`max(0, round(b - v, 2))` for a flat one; `calculate_booking_price` pairs that
with `discount_applied = true` exactly when an active discount is found, and
`(b, false)` otherwise; the booking document created by `create_booking`
stores exactly that pair; and the concrete scenario b = 100 with flat value 20
yields final price 80 with the discount applied. -/
theorem C2_pricing_correctness :
    (∀ b v : ℚ, calculate_discounted_price b "percentage" v =
        max 0 (pyRound2 (b * (1 - v / 100))))
    ∧ (∀ b v : ℚ, calculate_discounted_price b "flat" v = max 0 (pyRound2 (b - v)))
    ∧ (∀ (db : DB) (today : String) (svc : Service),
        get_active_discount db today svc.id = none →
        calculate_booking_price db today svc = (svc.base_price, false))
    ∧ (∀ (db : DB) (today : String) (svc : Service) (d : Discount),
        get_active_discount db today svc.id = some d →
        calculate_booking_price db today svc =
          (calculate_discounted_price svc.base_price d.discount_type d.discount_value, true))
    ∧ (∀ (db db2 : DB) (now : Instant) (today : String) (cid sid : Nat)
         (date ts notes : String) (bk : Booking) (svc : Service),
        create_booking db now today cid sid date ts notes = .ok (db2, bk) →
        findService db sid = some svc →
        bk.final_price = (calculate_booking_price db today svc).1 ∧
        bk.discount_applied = (calculate_booking_price db today svc).2)
    ∧ calculate_discounted_price 100 "flat" 20 = 80
    ∧ isOkE (create_booking c2db c2now "2031-06-01" 7 1 "2031-06-01" "10:00" "") = true
    ∧ (∀ (db2 : DB) (bk : Booking),
        create_booking c2db c2now "2031-06-01" 7 1 "2031-06-01" "10:00" "" = .ok (db2, bk) →
        bk.final_price = 80 ∧ bk.discount_applied = true) := by
  refine ⟨?_, ?_, ?_, ?_, ?_, ?_, ?_, ?_⟩
  · intro b v
    have hr : b - b * (v / 100) = b * (1 - v / 100) := by ring
    rw [calculate_discounted_price, if_pos rfl, hr]
  · intro b v
    rw [calculate_discounted_price, if_neg (by decide), if_pos rfl]
  · intro db today svc h
    rw [calculate_booking_price, h]
  · intro db today svc d h
    rw [calculate_booking_price, h]
  · intro db db2 now today cid sid date ts notes bk svc h hsvc
    obtain ⟨-, -, -, -, -, -, -, -, hp⟩ := create_booking_ok_inv h
    obtain ⟨h1, h2, -⟩ := hp svc hsvc
    exact ⟨h1, h2⟩
  · with_unfolding_all decide
  · with_unfolding_all decide
  · intro db2 bk h
    obtain ⟨-, -, -, -, -, -, -, -, hp⟩ := create_booking_ok_inv h
    obtain ⟨h1, h2, -⟩ := hp exService (by decide)
    rw [h1, h2]
    constructor
    · with_unfolding_all decide
    · with_unfolding_all decide

/-- Witness for C2 at concrete stores: the resolver applied with the active
flat discount present, and with no active discount. -/
theorem C2_pricing_correctness_witness :
    calculate_booking_price c2db "2031-06-01" exService =
      (calculate_discounted_price exService.base_price c2Discount.discount_type
        c2Discount.discount_value, true)
    ∧ calculate_booking_price exDBPending "2030-01-01" exService = (exService.base_price, false)
    ∧ calculate_discounted_price 3 "flat" 7 = max 0 (pyRound2 (3 - 7)) :=
  ⟨C2_pricing_correctness.2.2.2.1 c2db "2031-06-01" exService c2Discount (by decide),
   C2_pricing_correctness.2.2.1 exDBPending "2030-01-01" exService (by decide),
   C2_pricing_correctness.2.1 3 7⟩

/-! ### C3 — customer cancellation precondition chain -/

/-- C3. `cancel_booking` fails `NotFound` when the booking is absent;
otherwise `Forbidden` when the requester is not the owner; otherwise
`InvalidTransition` when the status is already Cancelled or Completed;
otherwise `PastBooking` when the slot instant is not strictly in the future;
otherwise it sets the status to Cancelled — and every failure leaves the
store unchanged. -/
theorem C3_cancel_chain :
    (∀ (db : DB) (now : Instant) (cid bid : Nat), findBooking db bid = none →
        cancel_booking db now cid bid = .error (.notFound "Booking not found"))
    ∧ (∀ (db : DB) (now : Instant) (cid bid : Nat) (bk : Booking),
        findBooking db bid = some bk → bk.customer_id ≠ cid →
        cancel_booking db now cid bid =
          .error (.forbidden "Unauthorized to cancel this booking"))
    ∧ (∀ (db : DB) (now : Instant) (cid bid : Nat) (bk : Booking),
        findBooking db bid = some bk → bk.customer_id = cid →
        (bk.status = "Cancelled" ∨ bk.status = "Completed") →
        cancel_booking db now cid bid = .error (.invalidTransition bk.status))
    ∧ (∀ (db : DB) (now : Instant) (cid bid : Nat) (bk : Booking),
        findBooking db bid = some bk → bk.customer_id = cid →
        ¬ (bk.status = "Cancelled" ∨ bk.status = "Completed") →
        is_future_datetime now bk.date bk.time_slot = some false →
        cancel_booking db now cid bid = .error .pastBooking)
    ∧ (∀ (db : DB) (now : Instant) (cid bid : Nat) (bk : Booking),
        findBooking db bid = some bk → bk.customer_id = cid →
        ¬ (bk.status = "Cancelled" ∨ bk.status = "Completed") →
        is_future_datetime now bk.date bk.time_slot = some true →
        cancel_booking db now cid bid = .ok (setBookingStatus db bid "Cancelled"))
    ∧ (∀ (db : DB) (now : Instant) (cid bid : Nat) (e : ApiError),
        cancel_booking db now cid bid = .error e → cancelRun db now cid bid = db) := by
  refine ⟨?_, ?_, ?_, ?_, ?_, ?_⟩
  · intro db now cid bid h
    simp [cancel_booking, h]
  · intro db now cid bid bk h hown
    simp [cancel_booking, h, hown]
  · intro db now cid bid bk h hown hst
    simp [cancel_booking, h, hown, hst]
  · intro db now cid bid bk h hown hst hfut
    simp [cancel_booking, h, hown, hst, hfut]
  · intro db now cid bid bk h hown hst hfut
    simp [cancel_booking, h, hown, hst, hfut]
  · intro db now cid bid e h
    rw [cancelRun, h]

/-- Witness for C3: the five outcomes at concrete stores — missing booking,
wrong requester, completed booking, elapsed slot, and a successful
cancellation. -/
theorem C3_cancel_chain_witness :
    cancel_booking exDBPending exNow 7 99 = .error (.notFound "Booking not found")
    ∧ cancel_booking exDBPending exNow 9 0 =
        .error (.forbidden "Unauthorized to cancel this booking")
    ∧ cancel_booking exDBCompleted exNow 7 0 =
        .error (.invalidTransition exBookingCompleted.status)
    ∧ cancel_booking exDBPast exNow 7 0 = .error .pastBooking
    ∧ cancel_booking exDBPending exNow 7 0 = .ok (setBookingStatus exDBPending 0 "Cancelled")
    ∧ cancelRun exDBPast exNow 7 0 = exDBPast :=
  ⟨C3_cancel_chain.1 exDBPending exNow 7 99 (by decide),
   C3_cancel_chain.2.1 exDBPending exNow 9 0 exBookingPending (by decide) (by decide),
   C3_cancel_chain.2.2.1 exDBCompleted exNow 7 0 exBookingCompleted (by decide) (by decide)
     (by decide),
   C3_cancel_chain.2.2.2.1 exDBPast exNow 7 0 exBookingPast (by decide) (by decide) (by decide)
     (by decide),
   C3_cancel_chain.2.2.2.2.1 exDBPending exNow 7 0 exBookingPending (by decide) (by decide)
     (by decide) (by decide),
   C3_cancel_chain.2.2.2.2.2 exDBPast exNow 7 0 .pastBooking
     (C3_cancel_chain.2.2.2.1 exDBPast exNow 7 0 exBookingPast (by decide) (by decide)
       (by decide) (by decide))⟩

/-! ### C4 — corrected: ownership is checked before the status transition -/

/-- C4 fails as stated: a caller who is not the booking's owner gets
`Forbidden`, not `InvalidTransition`, even when the booking is already
Completed — the ownership check runs first (`app.py:1202` before
`app.py:1206`). Here customer 9 cancels customer 7's Completed booking. -/
theorem C4_counterexample :
    cancel_booking exDBCompleted exNow 9 0 =
      .error (.forbidden "Unauthorized to cancel this booking")
    ∧ isInvalidTransitionErr (cancel_booking exDBCompleted exNow 9 0) = false := by
  constructor
  · decide
  · decide

/-- C4 amended: for the owning customer (the only caller that reaches the
status check), cancelling a booking already Completed or Cancelled fails with
`InvalidTransition`; any other customer fails with `Forbidden` first. -/
theorem C4_owner_invalid_transition :
    (∀ (db : DB) (now : Instant) (cid bid : Nat) (bk : Booking),
        findBooking db bid = some bk → bk.customer_id = cid →
        (bk.status = "Cancelled" ∨ bk.status = "Completed") →
        cancel_booking db now cid bid = .error (.invalidTransition bk.status))
    ∧ (∀ (db : DB) (now : Instant) (cid bid : Nat) (bk : Booking),
        findBooking db bid = some bk → bk.customer_id ≠ cid →
        cancel_booking db now cid bid =
          .error (.forbidden "Unauthorized to cancel this booking")) :=
  ⟨C3_cancel_chain.2.2.1, C3_cancel_chain.2.1⟩

/-- Witness for the amended C4: the owner cancelling the Completed booking
gets `InvalidTransition`; a stranger gets `Forbidden`. -/
theorem C4_owner_invalid_transition_witness :
    cancel_booking exDBCompleted exNow 7 0 =
      .error (.invalidTransition exBookingCompleted.status)
    ∧ cancel_booking exDBCancelled exNow 9 0 =
        .error (.forbidden "Unauthorized to cancel this booking") :=
  ⟨C4_owner_invalid_transition.1 exDBCompleted exNow 7 0 exBookingCompleted (by decide)
     (by decide) (by decide),
   C4_owner_invalid_transition.2 exDBCancelled exNow 9 0 exBookingCancelled (by decide)
     (by decide)⟩

/-! ### C5 — unrestricted admin status updates -/

/-- C5. For any existing booking the admin status update accepts each of the
four statuses and overwrites the current one unconditionally (including
reopening a Cancelled booking); any other requested status is rejected as a
`ValidationError` and every error leaves the store unchanged. -/
theorem C5_admin_set_status :
    (∀ (db : DB) (bid : Nat) (st : String) (bk : Booking),
        findBooking db bid = some bk →
        (st = "Pending" ∨ st = "Confirmed" ∨ st = "Completed" ∨ st = "Cancelled") →
        update_booking_status db bid (some st) =
          .ok (setBookingStatus db bid st, bk.status, st))
    ∧ (∀ (db : DB) (bid : Nat) (st : String),
        ¬ (st = "Pending" ∨ st = "Confirmed" ∨ st = "Completed" ∨ st = "Cancelled") →
        isValidationErr (update_booking_status db bid (some st)) = true)
    ∧ (∀ (db : DB) (bid : Nat) (st : Option String) (e : ApiError),
        update_booking_status db bid st = .error e → statusRun db bid st = db) := by
  refine ⟨?_, ?_, ?_⟩
  · intro db bid st bk h hst
    simp [update_booking_status, h, hst]
  · intro db bid st hst
    simp [update_booking_status, hst, isValidationErr]
  · intro db bid st e h
    rw [statusRun, h]

/-- Witness for C5: reopening the Cancelled fixture booking to Pending
succeeds; status "Vacation" is rejected; the rejection leaves the store
unchanged. -/
theorem C5_admin_set_status_witness :
    update_booking_status exDBCancelled 0 (some "Pending") =
      .ok (setBookingStatus exDBCancelled 0 "Pending", exBookingCancelled.status, "Pending")
    ∧ isValidationErr (update_booking_status exDBCancelled 0 (some "Vacation")) = true
    ∧ statusRun exDBCancelled 0 (some "Vacation") = exDBCancelled :=
  ⟨C5_admin_set_status.1 exDBCancelled 0 "Pending" exBookingCancelled (by decide) (by decide),
   C5_admin_set_status.2.1 exDBCancelled 0 "Vacation" (by decide),
   C5_admin_set_status.2.2 exDBCancelled 0 (some "Vacation")
     (.validationError
       "Invalid status. Must be one of: Pending, Confirmed, Completed, Cancelled")
     (by decide)⟩

/-! ### C6 — discount-window conflict on create -/

theorem validate_date_ne_empty {s : String} (h : validate_date_format s = true) : s ≠ "" := by
  intro he
  rw [he] at h
  exact absurd h (by decide)

/-- C6. A discount-creation request whose inclusive window overlaps an active
discount on the same service is rejected with `Conflict` (and, like every
error, inserts nothing); a successful creation implies no such overlap existed
and the stored discount has `is_active = true`. -/
theorem C6_discount_overlap :
    (∀ (db : DB) (sid : Nat) (t : String) (v : ℚ) (s e : String) (svc : Service),
        findService db sid = some svc →
        (t = "percentage" ∨ t = "flat") → 0 < v →
        (t = "percentage" → v ≤ 100) →
        validate_date_format s = true → validate_date_format e = true →
        strLe s e = true →
        discountOverlapExists db sid s e = true →
        create_discount db sid t v s e = .error .conflict)
    ∧ (∀ (db : DB) (sid : Nat) (t : String) (v : ℚ) (s e : String) (err : ApiError),
        create_discount db sid t v s e = .error err →
        createDiscountRun db sid t v s e = db)
    ∧ (∀ (db db2 : DB) (sid : Nat) (t : String) (v : ℚ) (s e : String) (d : Discount),
        create_discount db sid t v s e = .ok (db2, d) →
        d.is_active = true ∧ db2.discounts = db.discounts ++ [d] ∧
        discountOverlapExists db sid s e = false) := by
  refine ⟨?_, ?_, ?_⟩
  · intro db sid t v s e svc hsvc htyp hv hb hdfs hdfe hse hover
    have ht0 : t ≠ "" := by
      rcases htyp with h | h <;> (rw [h]; decide)
    have hs0 : s ≠ "" := validate_date_ne_empty hdfs
    have he0 : e ≠ "" := validate_date_ne_empty hdfe
    rw [create_discount, if_neg (by simp [ht0, hs0, he0])]
    simp only [hsvc]
    rw [if_neg (not_not_intro htyp)]
    rw [if_neg (not_le.mpr hv)]
    rw [if_neg (by rintro ⟨hp, hgt⟩; exact absurd hgt (not_lt.mpr (hb hp)))]
    rw [if_neg (by simp [hdfs, hdfe])]
    rw [if_neg (by simp [hse])]
    rw [if_pos hover]
  · intro db sid t v s e err h
    rw [createDiscountRun, h]
  · intro db db2 sid t v s e d h
    unfold create_discount at h
    repeat' split at h
    all_goals try exact Except.noConfusion h
    rename_i hreq xs svc hsvc htyp hv hpct hdf hse hover
    injection h with h1
    injection h1 with h2 h3
    subst h2
    subst h3
    exact ⟨rfl, rfl, by simpa using hover⟩

/-- Fixture: an active percentage discount on `exService` for June 2031. -/
def c6Discount : Discount := ⟨2, 1, "percentage", 10, "2031-05-01", "2031-06-30", true⟩

/-- Fixture: store holding `c6Discount`. -/
def c6db : DB := ⟨[exUser], [exService], [c6Discount], [], [], [], 5⟩

/-- Witness for C6: creating a flat discount whose window overlaps
`c6Discount` is rejected with `Conflict`, and the store is unchanged. -/
theorem C6_discount_overlap_witness :
    create_discount c6db 1 "flat" 20 "2031-06-10" "2031-07-10" = .error .conflict
    ∧ createDiscountRun c6db 1 "flat" 20 "2031-06-10" "2031-07-10" = c6db :=
  ⟨C6_discount_overlap.1 c6db 1 "flat" 20 "2031-06-10" "2031-07-10" exService (by decide)
     (Or.inr rfl) (by decide) (fun h => absurd h (by decide)) (by decide) (by decide)
     (by decide) (by decide),
   C6_discount_overlap.2.1 c6db 1 "flat" 20 "2031-06-10" "2031-07-10" .conflict
     (C6_discount_overlap.1 c6db 1 "flat" 20 "2031-06-10" "2031-07-10" exService (by decide)
       (Or.inr rfl) (by decide) (fun h => absurd h (by decide)) (by decide) (by decide)
       (by decide) (by decide))⟩

/-! ### C7 — corrected: discount update re-validates fields but never checks
window overlap -/

/-- Does another active discount on the same service overlap this one's
window? -/
def overlapsActiveOther (db : DB) (d : Discount) : Bool :=
  db.discounts.any (fun d2 =>
    d2.id != d.id && d2.service_id == d.service_id && d2.is_active &&
    strLe d2.start_date d.end_date && strLe d.start_date d2.end_date)

/-- Did a discount update succeed and leave its discount active with a window
overlapping another active discount on the same service? -/
def updateLeavesOverlap (r : Except ApiError (DB × Discount)) : Bool :=
  match r with
  | .ok (db2, d) => d.is_active && overlapsActiveOther db2 d
  | .error _ => false

/-- Fixture: active percentage discount on service 1 for 2024-01-10..20. -/
def c7d1 : Discount := ⟨1, 1, "percentage", 10, "2024-01-10", "2024-01-20", true⟩

/-- Fixture: active flat discount on service 1 for 2024-03-01..05. -/
def c7d2 : Discount := ⟨2, 1, "flat", 5, "2024-03-01", "2024-03-05", true⟩

/-- Fixture: store holding both discounts. -/
def c7db : DB := ⟨[], [exService], [c7d1, c7d2], [], [], [], 5⟩

/-- Fixture: patch moving `c7d2` into `c7d1`'s window. -/
def c7patch : DiscountPatch := ⟨none, none, some "2024-01-12", some "2024-01-15", none⟩

/-- C7 fails as stated: `update_discount` performs no overlap query
(`app.py:666-724` has no counterpart of the query at `app.py:588`), so moving
an active discount's window onto another active discount on the same service
succeeds instead of being rejected with `Conflict`, leaving two overlapping
active discounts. -/
theorem C7_counterexample :
    updateLeavesOverlap (update_discount c7db 2 c7patch) = true
    ∧ update_discount c7db 2 c7patch ≠ .error .conflict := by
  exact ⟨by decide, by decide⟩

/-- C7 amended: each supplied field is re-validated against create's rules on
the merged values — type in {percentage, flat}, value > 0, value ≤ 100 when
the merged type is percentage, well-formed dates, merged start ≤ merged end —
and an update failing them is rejected as a `ValidationError`, leaving the
discount unchanged; but no `Conflict`/overlap check is performed: whenever
the per-field checks pass, the update succeeds and applies the merged
document. -/
theorem C7_update_revalidation :
    (∀ (db : DB) (did : Nat) (p : DiscountPatch) (disc : Discount),
        findDiscount db did = some disc → patchValid disc p = true →
        update_discount db did p =
          .ok ({ db with discounts :=
                  db.discounts.map (fun d => if d.id == did then mergePatch disc p else d) },
               mergePatch disc p))
    ∧ (∀ (db : DB) (did : Nat) (p : DiscountPatch) (disc : Discount),
        findDiscount db did = some disc → patchValid disc p = false →
        isValidationErr (update_discount db did p) = true) := by
  constructor
  · intro db did p disc hfind hv
    rw [patchValid] at hv
    simp only [Bool.and_eq_true, Bool.not_eq_true'] at hv
    obtain ⟨⟨⟨⟨⟨h1, h2⟩, h3⟩, h4⟩, h5⟩, h6⟩ := hv
    rw [update_discount]
    simp only [hfind]
    rw [if_neg (by simp [h1]), if_neg (by simp [h2]), if_neg (by simp [h3]),
        if_neg (by simp [h4]), if_neg (by simp [h5]), if_neg (by simp [h6])]
  · intro db did p disc hfind hv
    rw [update_discount]
    simp only [hfind]
    by_cases h1 : patchTypeBad p = true
    · simp [h1, isValidationErr]
    by_cases h2 : patchValueNonpos p = true
    · simp [h1, h2, isValidationErr]
    by_cases h3 : patchValueOver100 disc p = true
    · simp [h1, h2, h3, isValidationErr]
    by_cases h4 : patchStartBad p = true
    · simp [h1, h2, h3, h4, isValidationErr]
    by_cases h5 : patchEndBad p = true
    · simp [h1, h2, h3, h4, h5, isValidationErr]
    by_cases h6 : strLe (p.start_date.getD disc.start_date) (p.end_date.getD disc.end_date) = true
    · exfalso
      rw [Bool.not_eq_true] at h1 h2 h3 h4 h5
      rw [patchValid, h1, h2, h3, h4, h5, h6] at hv
      exact absurd hv (by decide)
    · rw [Bool.not_eq_true] at h6
      simp [h1, h2, h3, h4, h5, h6, isValidationErr]

/-- Witness for the amended C7: the overlap-creating (but field-valid) patch
succeeds with the merged document, and a patch with a non-positive value is
rejected. -/
theorem C7_update_revalidation_witness :
    update_discount c7db 2 c7patch =
      .ok ({ c7db with discounts :=
              c7db.discounts.map (fun d => if d.id == 2 then mergePatch c7d2 c7patch else d) },
           mergePatch c7d2 c7patch)
    ∧ isValidationErr (update_discount c7db 2 ⟨none, some 0, none, none, none⟩) = true :=
  ⟨C7_update_revalidation.1 c7db 2 c7patch c7d2 (by decide) (by decide),
   C7_update_revalidation.2 c7db 2 ⟨none, some 0, none, none, none⟩ c7d2 (by decide)
     (by decide)⟩

/-! ### C8 — attendance one-record-per-day invariant -/

/-- C8. In every reachable store state, at most one attendance record exists
per `(staff_id, date)`; `attendance_checkin` fails `NotFound` when the staff
member is absent or soft-deleted, fails `AlreadyCheckedIn` (a 409) when a
record for the pair already exists, and on success inserts a record with
status Present and no check-out time; the application pre-check and the
store-level unique constraint test exactly the same condition, so the handler
can never hit the uncaught `DuplicateKeyError` path. -/
theorem C8_attendance_invariant :
    (∀ db : DB, Reach db →
      db.attendance.Pairwise (fun a b => ¬ (a.staff_id = b.staff_id ∧ a.date = b.date)))
    ∧ (∀ (db : DB) (nowT : String) (sid : Nat) (date : String) (cit : Option String),
        date ≠ "" → validate_date_format date = true →
        findActiveStaff db sid = none →
        attendance_checkin db nowT sid date cit = .error (.notFound "Staff not found or inactive"))
    ∧ (∀ (db : DB) (nowT : String) (sid : Nat) (date : String) (cit : Option String)
         (staff : Staff),
        date ≠ "" → validate_date_format date = true →
        findActiveStaff db sid = some staff →
        attendanceExists db sid date = true →
        attendance_checkin db nowT sid date cit = .error .alreadyCheckedIn)
    ∧ ApiError.alreadyCheckedIn.httpStatus = 409
    ∧ (∀ (db db2 : DB) (nowT : String) (sid : Nat) (date : String) (cit : Option String)
         (a : Attendance),
        attendance_checkin db nowT sid date cit = .ok (db2, a) →
        a.attendance_status = "Present" ∧ a.check_out_time = none ∧
        a.staff_id = sid ∧ a.date = date ∧
        db2.attendance = db.attendance ++ [a])
    ∧ (∀ (db : DB) (sid : Nat) (date : String),
        attendanceExists db sid date = attendanceIndexViolation db sid date)
    ∧ (∀ (db : DB) (nowT : String) (sid : Nat) (date : String) (cit : Option String),
        attendance_checkin db nowT sid date cit ≠ .error .internalError) := by
  refine ⟨?_, ?_, ?_, rfl, ?_, fun db sid date => rfl, ?_⟩
  · intro db h
    exact (reach_attendanceKeyUnique h).imp (fun hn => hn)
  · intro db nowT sid date cit hd hdf hstaff
    simp [attendance_checkin, hd, hdf, hstaff]
  · intro db nowT sid date cit staff hd hdf hstaff hex
    simp [attendance_checkin, hd, hdf, hstaff, hex]
  · intro db db2 nowT sid date cit a h
    obtain ⟨ha, -, hsid, hdate, hst, hco, -⟩ := attendance_checkin_ok_inv h
    exact ⟨hst, hco, hsid, hdate, ha⟩
  · intro db nowT sid date cit h
    unfold attendance_checkin at h
    repeat' split at h
    all_goals try exact Except.noConfusion h
    all_goals try (injection h with h1; exact ApiError.noConfusion h1)
    rename_i hdate hdf xs staff hstaff hex hcit hdup
    rw [Bool.not_eq_true] at hex
    have hiv : attendanceIndexViolation db sid date = false := hex
    rw [hiv] at hdup
    exact absurd hdup (by decide)

/-- Fixture: an active staff member and a soft-deleted one. -/
def exStaff : Staff := ⟨3, "Ravi", false⟩

/-- Fixture: a soft-deleted staff member. -/
def exStaffDeleted : Staff := ⟨4, "Meera", true⟩

/-- Fixture: attendance record of `exStaff` on 2024-01-01. -/
def exAttendance : Attendance := ⟨0, 3, "Ravi", "2024-01-01", "09:00", none, "Present"⟩

/-- Fixture: store with both staff members and the attendance record. -/
def c8db : DB := ⟨[], [], [], [], [exStaff, exStaffDeleted], [exAttendance], 9⟩

/-- Witness for C8: the invariant at the initial store; check-in rejected for
the soft-deleted staff member; a second same-day check-in rejected; and the
agreement/no-duplicate-key conclusions at the fixture store. -/
theorem C8_attendance_invariant_witness :
    initDB.attendance.Pairwise (fun a b => ¬ (a.staff_id = b.staff_id ∧ a.date = b.date))
    ∧ attendance_checkin c8db "10:00" 4 "2024-01-01" none =
        .error (.notFound "Staff not found or inactive")
    ∧ attendance_checkin c8db "10:00" 3 "2024-01-01" none = .error .alreadyCheckedIn
    ∧ attendanceExists c8db 3 "2024-01-01" = attendanceIndexViolation c8db 3 "2024-01-01"
    ∧ attendance_checkin c8db "10:00" 3 "2024-01-02" (some "09:30") ≠ .error .internalError :=
  ⟨C8_attendance_invariant.1 initDB Reach.init,
   C8_attendance_invariant.2.1 c8db "10:00" 4 "2024-01-01" none (by decide) (by decide)
     (by decide),
   C8_attendance_invariant.2.2.1 c8db "10:00" 3 "2024-01-01" none exStaff (by decide)
     (by decide) (by decide) (by decide),
   C8_attendance_invariant.2.2.2.2.2.1 c8db 3 "2024-01-01",
   C8_attendance_invariant.2.2.2.2.2.2 c8db "10:00" 3 "2024-01-02" (some "09:30")⟩

/-! ### C9 — corrected: the price helper is total and nonnegative, but an
unrecognised type does not return `base_price` verbatim -/

theorem ratFloor_eq_floor (q : ℚ) : ratFloor q = ⌊q⌋ := by
  rw [Rat.floor_def, ratFloor]
  exact Int.fdiv_eq_ediv _ (Int.natCast_nonneg _)

theorem roundHalfEven_nonpos {q : ℚ} (h : q ≤ 0) : roundHalfEven q ≤ 0 := by
  have hfl : ratFloor q ≤ 0 := by
    rw [ratFloor_eq_floor]
    calc ⌊q⌋ ≤ ⌊(0 : ℚ)⌋ := Int.floor_le_floor h
    _ = 0 := Int.floor_zero
  rw [roundHalfEven]
  split_ifs with h1 h2 h3
  · exact hfl
  · have hne : ratFloor q ≠ 0 := by
      intro h0
      rw [h0] at h2
      push_cast at h2
      linarith
    omega
  · exact hfl
  · have hne : ratFloor q ≠ 0 := by
      intro h0
      rw [h0] at h1
      push_cast at h1
      linarith
    omega

theorem pyRound2_nonpos {q : ℚ} (h : q ≤ 0) : pyRound2 q ≤ 0 := by
  rw [pyRound2]
  have h1 : roundHalfEven (q * 100) ≤ 0 := roundHalfEven_nonpos (by linarith)
  have h2 : ((roundHalfEven (q * 100) : ℤ) : ℚ) ≤ 0 := by exact_mod_cast h1
  linarith

theorem pyRound2_eq_self {q : ℚ} (hd : (q * 100).den = 1) : pyRound2 q = q := by
  have hq : ((q * 100).num : ℚ) = q * 100 := by
    conv_rhs => rw [← Rat.num_div_den (q * 100)]
    rw [hd]
    push_cast
    rw [div_one]
  have hfl : ratFloor (q * 100) = (q * 100).num := by
    rw [ratFloor_eq_floor]
    conv_lhs => rw [← hq]
    exact Int.floor_intCast _
  rw [pyRound2, roundHalfEven, hfl]
  rw [if_pos (by rw [hq]; norm_num)]
  rw [hq]
  ring

/-- C9 fails as stated: an unrecognised `discount_type` does not always yield
`base_price` unchanged — the fall-through value still passes through
`max(0, round(·, 2))`, so a negative base (here −5) comes back as 0. -/
theorem C9_counterexample :
    calculate_discounted_price (-5) "invalid" 3 = 0 ∧ (0 : ℚ) ≠ (-5 : ℚ) := by
  constructor
  · with_unfolding_all decide
  · with_unfolding_all decide

/-- C9 amended: `calculate_discounted_price` is total and never negative; a
flat discount at least the base price yields 0; an unrecognised
`discount_type` yields `max(0, round(base_price, 2))` rather than an error —
which equals `base_price` exactly when the base is a nonnegative amount with
at most two decimal places. -/
theorem C9_price_totality :
    (∀ (b : ℚ) (t : String) (v : ℚ), 0 ≤ calculate_discounted_price b t v)
    ∧ (∀ (b : ℚ) (t : String) (v : ℚ), t ≠ "percentage" → t ≠ "flat" →
        calculate_discounted_price b t v = max 0 (pyRound2 b))
    ∧ (∀ b v : ℚ, b ≤ v → calculate_discounted_price b "flat" v = 0)
    ∧ (∀ (b : ℚ) (t : String) (v : ℚ), t ≠ "percentage" → t ≠ "flat" → 0 ≤ b →
        (b * 100).den = 1 → calculate_discounted_price b t v = b) := by
  refine ⟨?_, ?_, ?_, ?_⟩
  · intro b t v
    rw [calculate_discounted_price]
    exact le_max_left _ _
  · intro b t v h1 h2
    rw [calculate_discounted_price, if_neg h1, if_neg h2]
  · intro b v h
    rw [calculate_discounted_price, if_neg (by decide), if_pos rfl]
    exact max_eq_left (pyRound2_nonpos (by linarith))
  · intro b t v h1 h2 hb hd
    rw [calculate_discounted_price, if_neg h1, if_neg h2, pyRound2_eq_self hd]
    exact max_eq_right hb

/-- Witness for the amended C9 at concrete prices: nonnegativity, the
fall-through formula, a flat discount exceeding the base, and exact
passthrough of a two-decimal base. -/
theorem C9_price_totality_witness :
    (0 : ℚ) ≤ calculate_discounted_price 100 "percentage" 150
    ∧ calculate_discounted_price 12.34 "loyalty" 5 = max 0 (pyRound2 12.34)
    ∧ calculate_discounted_price 100 "flat" 120 = 0
    ∧ calculate_discounted_price 12.34 "loyalty" 5 = 12.34 :=
  ⟨C9_price_totality.1 100 "percentage" 150,
   C9_price_totality.2.1 12.34 "loyalty" 5 (by decide) (by decide),
   C9_price_totality.2.2.1 100 120 (by with_unfolding_all decide),
   C9_price_totality.2.2.2 12.34 "loyalty" 5 (by decide) (by decide)
     (by with_unfolding_all decide) (by with_unfolding_all decide)⟩

/-! ### C10 — one-digit and two-digit hour spellings of the same slot -/

theorem parseHourChars_pair {c1 c2 : Char} (h : hourPairOk c1 c2 = true) :
    ∃ n, parseHourChars [c1, c2] = some n ∧ n ≤ 23 := by
  rw [hourPairOk, Bool.or_eq_true] at h
  rcases h with h | h
  · refine ⟨10 * digitVal c1 + digitVal c2, by simp [parseHourChars, h], ?_⟩
    rw [Bool.and_eq_true] at h
    obtain ⟨h1, h2⟩ := h
    have hc1 : c1.toNat = 48 ∨ c1.toNat = 49 := by
      rw [Bool.or_eq_true] at h1
      rcases h1 with h0 | h0 <;> rw [beq_iff_eq] at h0 <;> subst h0
      · left; rfl
      · right; rfl
    simp only [isDig, Bool.and_eq_true, decide_eq_true_eq] at h2
    rw [digitVal, digitVal]
    omega
  · rw [Bool.and_eq_true] at h
    obtain ⟨h1, h2⟩ := h
    rw [beq_iff_eq] at h1
    subst h1
    refine ⟨20 + digitVal c2, by simp [parseHourChars, h2], ?_⟩
    simp only [Bool.and_eq_true, decide_eq_true_eq] at h2
    rw [digitVal]
    omega

theorem parseMinuteChars_pair {c1 c2 : Char} (h : minutePairOk c1 c2 = true) :
    ∃ n, parseMinuteChars [c1, c2] = some n ∧ n ≤ 59 := by
  rw [minutePairOk] at h
  refine ⟨10 * digitVal c1 + digitVal c2, by simp [parseMinuteChars, h], ?_⟩
  rw [Bool.and_eq_true] at h
  obtain ⟨h1, h2⟩ := h
  simp only [Bool.and_eq_true, decide_eq_true_eq] at h1
  simp only [isDig, Bool.and_eq_true, decide_eq_true_eq] at h2
  rw [digitVal, digitVal]
  omega

/-- Fixture: a pending booking at the two-digit spelling "09:30". -/
def c10Booking : Booking :=
  ⟨0, 7, "Asha", "asha@example.com", 1, "Haircut", "2031-06-01", "09:30", 100, 100, false,
   "Pending", ""⟩

/-- Fixture: store with the "09:30" booking. -/
def c10db : DB := ⟨[exUser], [exService], [], [c10Booking], [], [], 10⟩

/-- C10, corrected for Python's `$`-before-trailing-newline quirk. Every
string accepted by `validate_time_slot` either parses (by the same `strptime`
rules the rest of the code uses) to an hour 0-23 and a minute 0-59, or is an
accepted spelling followed by exactly one trailing newline — which
`parse_time` (strptime) then rejects; for a one-digit hour both the one-digit
spelling `h:MM` and the two-digit spelling `0h:MM` are accepted, are distinct
strings, and denote the same clock time; and the string-keyed slot check of
`create_booking` treats them as different slots — with "09:30" already booked
(and non-cancelled), neither the pre-check nor the unique index sees "9:30",
so the booking at "9:30" succeeds. -/
theorem C10_two_spellings :
    (∀ s : String, validate_time_slot s = true →
        (∃ tv : TimeV, parse_time s = some tv ∧ tv.hh ≤ 23 ∧ tv.mm ≤ 59) ∨
        (parse_time s = none ∧ ∃ l : List Char, s.data = l ++ ['\n'] ∧
          validate_time_slot (String.mk l) = true))
    ∧ (∀ h1 m1 m2 : Char, isDig h1 = true → minutePairOk m1 m2 = true →
        validate_time_slot (String.mk [h1, ':', m1, m2]) = true ∧
        validate_time_slot (String.mk ['0', h1, ':', m1, m2]) = true ∧
        String.mk [h1, ':', m1, m2] ≠ String.mk ['0', h1, ':', m1, m2] ∧
        parse_time (String.mk [h1, ':', m1, m2]) =
          parse_time (String.mk ['0', h1, ':', m1, m2]))
    ∧ (slotPrecheckTaken c10db 1 "2031-06-01" "09:30" = true ∧
       slotPrecheckTaken c10db 1 "2031-06-01" "9:30" = false ∧
       bookingIndexViolation c10db 1 "2031-06-01" "9:30" = false ∧
       isOkE (create_booking c10db exNow "2030-01-01" 7 1 "2031-06-01" "9:30" "") = true) := by
  refine ⟨?_, ?_, by decide, by decide, by decide, by decide⟩
  · intro s hv
    obtain ⟨l⟩ := s
    rcases l with _ | ⟨c1, _ | ⟨c2, _ | ⟨c3, _ | ⟨c4, _ | ⟨c5, _ | ⟨c6, _ | ⟨c7, rest⟩⟩⟩⟩⟩⟩⟩
    · exact absurd hv (by simp [validate_time_slot])
    · exact absurd hv (by simp [validate_time_slot])
    · exact absurd hv (by simp [validate_time_slot])
    · exact absurd hv (by simp [validate_time_slot])
    · -- length 4: one-digit hour, no trailing newline
      simp only [validate_time_slot, Bool.and_eq_true] at hv
      obtain ⟨⟨hc, hd⟩, hm⟩ := hv
      rw [beq_iff_eq] at hc
      subst hc
      obtain ⟨m, hmp, hmb⟩ := parseMinuteChars_pair hm
      left
      refine ⟨⟨digitVal c1, m⟩, ?_, ?_, hmb⟩
      · simp [parse_time, mkTimeV, parseHourChars, hd, hmp]
      · show digitVal c1 ≤ 23
        simp only [isDig, Bool.and_eq_true, decide_eq_true_eq] at hd
        rw [digitVal]
        omega
    · -- length 5: one-digit hour with trailing newline, or two-digit hour
      simp only [validate_time_slot, Bool.or_eq_true, Bool.and_eq_true] at hv
      rcases hv with ⟨⟨⟨hc, hd⟩, hm⟩, hnl⟩ | ⟨⟨hc, hh⟩, hm⟩
      · rw [beq_iff_eq] at hc hnl
        subst hc
        subst hnl
        have hm2 := hm
        simp only [minutePairOk, Bool.and_eq_true, decide_eq_true_eq] at hm2
        have hc3 : (c3 == ':') = false := by
          by_cases habs : c3 = ':'
          · rw [habs] at hm2
            exact absurd hm2.1.2 (by decide)
          · exact beq_false_of_ne habs
        right
        refine ⟨?_, [c1, ':', c3, c4], rfl, ?_⟩
        · simp [parse_time, hc3]
        · simp [validate_time_slot, hd, hm]
      · rw [beq_iff_eq] at hc
        subst hc
        obtain ⟨n, hhp, hhb⟩ := parseHourChars_pair hh
        obtain ⟨m, hmp, hmb⟩ := parseMinuteChars_pair hm
        left
        refine ⟨⟨n, m⟩, ?_, hhb, hmb⟩
        simp [parse_time, mkTimeV, hhp, hmp]
    · -- length 6: two-digit hour with trailing newline
      simp only [validate_time_slot, Bool.and_eq_true] at hv
      obtain ⟨⟨⟨hc, hh⟩, hm⟩, hnl⟩ := hv
      rw [beq_iff_eq] at hc hnl
      subst hc
      subst hnl
      right
      refine ⟨?_, [c1, c2, ':', c4, c5], rfl, ?_⟩
      · simp [parse_time]
      · simp [validate_time_slot, hh, hm]
    · exact absurd hv (by simp [validate_time_slot])
  · intro h1 m1 m2 hd hm
    have h0 : digitVal '0' = 0 := rfl
    obtain ⟨m, hmp, -⟩ := parseMinuteChars_pair hm
    refine ⟨?_, ?_, ?_, ?_⟩
    · simp [validate_time_slot, hd, hm]
    · simp [validate_time_slot, hourPairOk, hd, hm]
    · intro he
      injection he with he2
      have hlen := congrArg List.length he2
      simp at hlen
    · simp [parse_time, mkTimeV, parseHourChars, hd, hmp, h0]

/-- C10 fails as stated: Python's `$` matches just before one trailing
newline, so the source regex accepts "9:30\n" — but that accepted string has
no hour or minute at all: `strptime("%H:%M")` raises on it (`parse_time`
returns `none`), refuting "for every accepted string the hour is 0-23 and the
minute is 0-59". -/
theorem C10_counterexample :
    validate_time_slot "9:30\n" = true ∧ parse_time "9:30\n" = none := by
  exact ⟨by decide, by decide⟩

/-- Witness for the amended C10 at the concrete spellings "9:30", "09:30" and
the newline-suffixed "09:30\n". -/
theorem C10_two_spellings_witness :
    ((∃ tv : TimeV, parse_time "9:30" = some tv ∧ tv.hh ≤ 23 ∧ tv.mm ≤ 59) ∨
      (parse_time "9:30" = none ∧ ∃ l : List Char, ("9:30").data = l ++ ['\n'] ∧
        validate_time_slot (String.mk l) = true))
    ∧ ((∃ tv : TimeV, parse_time "09:30\n" = some tv ∧ tv.hh ≤ 23 ∧ tv.mm ≤ 59) ∨
      (parse_time "09:30\n" = none ∧ ∃ l : List Char, ("09:30\n").data = l ++ ['\n'] ∧
        validate_time_slot (String.mk l) = true))
    ∧ validate_time_slot (String.mk ['9', ':', '3', '0']) = true
    ∧ validate_time_slot (String.mk ['0', '9', ':', '3', '0']) = true
    ∧ String.mk ['9', ':', '3', '0'] ≠ String.mk ['0', '9', ':', '3', '0']
    ∧ parse_time (String.mk ['9', ':', '3', '0']) =
        parse_time (String.mk ['0', '9', ':', '3', '0']) :=
  ⟨C10_two_spellings.1 "9:30" (by decide),
   C10_two_spellings.1 "09:30\n" (by decide),
   (C10_two_spellings.2.1 '9' '3' '0' (by decide) (by decide)).1,
   (C10_two_spellings.2.1 '9' '3' '0' (by decide) (by decide)).2.1,
   (C10_two_spellings.2.1 '9' '3' '0' (by decide) (by decide)).2.2.1,
   (C10_two_spellings.2.1 '9' '3' '0' (by decide) (by decide)).2.2.2⟩

end Salon
